import Mathlib

/-!
Verification development for the VC job-hunting / dealflow tracker backend.

This file shallowly embeds the parts of the backend that carry actual logic:

* `DashboardService.update_streak` (src/backend/app/services/dashboard_service.py),
* `ApplicationService.get_application_stats`
  (src/backend/app/services/application_service.py),
* `DealflowApplicationService.get_dealflow_stats`
  (src/backend/app/services/dealflow_application_service.py),
* `ScrapingService.run_scraping_job` / `search_vc_firms`
  (src/backend/app/services/scraping.py),
* `DealflowScrapingService.run_dealflow_scrape` / `search_accelerators` /
  `search_sectors` (src/backend/app/services/dealflow_scraping.py).

Calendar dates are modelled as integers (a day number), so `today - timedelta(days=1)`
becomes `today - 1`; timestamps are modelled as integer seconds.  The database is
modelled as a list of records threaded through each operation; `db.commit` /
`db.refresh` are treated as infallible and are therefore invisible in the model.
Exceptions are modelled with `Except` at the run level, and with explicit outcome
tags at the per-candidate level.
-/

namespace VCTracker

/-! ## User settings and the streak state machine (dashboard_service.py) -/

/-- The `user_settings` row (src/backend/app/models/user_settings.py): two weekly
goals and two streak counters, each streak paired with an optional "last updated"
date. -/
structure UserSettings where
  weekly_job_application_goal : Int
  weekly_dealflow_sourcing_goal : Int
  job_application_streak : Int
  job_application_streak_updated : Option Int
  dealflow_sourcing_streak : Int
  dealflow_sourcing_streak_updated : Option Int
  deriving Repr, DecidableEq

/-- `DashboardService.update_streak` (dashboard_service.py, lines 103-154).
`activity_type` selects which counter/date pair is mutated; any other string
falls through both branches and the settings are returned unchanged. -/
def update_streak (s : UserSettings) (activity_type : String) (today : Int) :
    UserSettings :=
  if activity_type = "job" then
    match s.job_application_streak_updated with
    | none =>
        { s with job_application_streak := 1
                 job_application_streak_updated := some today }
    | some last_updated =>
        if last_updated = today then
          s
        else if last_updated = today - 1 then
          { s with job_application_streak := s.job_application_streak + 1
                   job_application_streak_updated := some today }
        else
          { s with job_application_streak := 1
                   job_application_streak_updated := some today }
  else if activity_type = "dealflow" then
    match s.dealflow_sourcing_streak_updated with
    | none =>
        { s with dealflow_sourcing_streak := 1
                 dealflow_sourcing_streak_updated := some today }
    | some last_updated =>
        if last_updated = today then
          s
        else if last_updated = today - 1 then
          { s with dealflow_sourcing_streak := s.dealflow_sourcing_streak + 1
                   dealflow_sourcing_streak_updated := some today }
        else
          { s with dealflow_sourcing_streak := 1
                   dealflow_sourcing_streak_updated := some today }
  else
    s

/-! ## Application statistics (application_service.py) -/

/-- An `applications` row, restricted to the columns `get_application_stats`
reads: the status string and the two optional date columns. -/
structure Application where
  status : String
  applied_date : Option Int
  next_follow_up_date : Option Int
  deriving Repr, DecidableEq

/-- The grouped count `by_status.get(s, 0)`: the number of applications whose
status equals `s`. -/
def countStatus (apps : List Application) (s : String) : Nat :=
  apps.countP (fun a => a.status = s)

/-- `applied_count` as computed in `get_application_stats`
(application_service.py, lines 147-151). -/
def appliedCount (apps : List Application) : Nat :=
  countStatus apps "applied" + countStatus apps "interviewing" +
    countStatus apps "rejected" + countStatus apps "offer" +
    countStatus apps "accepted"

/-- Python's `round` on the scaled value: round-half-to-even to the nearest
integer. -/
def roundHalfEven (x : ℚ) : ℤ :=
  if Int.fract x < 1 / 2 then ⌊x⌋
  else if 1 / 2 < Int.fract x then ⌊x⌋ + 1
  else if Even ⌊x⌋ then ⌊x⌋ else ⌊x⌋ + 1

/-- `round(x, 3)`: round to 3 decimal places, ties to even. -/
def round3 (x : ℚ) : ℚ :=
  (roundHalfEven (1000 * x) : ℚ) / 1000

/-- The output of `get_application_stats`. -/
structure AppStats where
  total : Nat
  recent_applications : Nat
  upcoming_follow_ups : Nat
  response_rate : ℚ
  interview_rate : ℚ
  offer_rate : ℚ
  deriving Repr, DecidableEq

/-- `ApplicationService.get_application_stats` (application_service.py,
lines 115-178).  `recent_applications` counts rows with
`applied_date >= date.today() - timedelta(days=7)` (rows with a NULL
`applied_date` never satisfy a SQL comparison); `upcoming_follow_ups` counts
rows with `next_follow_up_date` between `today` and `today + 7` inclusive.
Ratios divide by `applied_count` when it is positive and are 0 otherwise. -/
def get_application_stats (apps : List Application) (today : Int) : AppStats :=
  let applied_count := appliedCount apps
  let responded_count := countStatus apps "interviewing" +
    countStatus apps "rejected" + countStatus apps "offer" +
    countStatus apps "accepted"
  let interview_count := countStatus apps "interviewing" +
    countStatus apps "offer" + countStatus apps "accepted"
  let offer_count := countStatus apps "offer" + countStatus apps "accepted"
  let seven_days_ago := today - 7
  { total := apps.length
    recent_applications := apps.countP (fun a =>
      match a.applied_date with
      | some d => seven_days_ago ≤ d
      | none => false)
    upcoming_follow_ups := apps.countP (fun a =>
      match a.next_follow_up_date with
      | some d => today ≤ d && d ≤ today + 7
      | none => false)
    response_rate :=
      if 0 < applied_count then round3 (responded_count / applied_count) else 0
    interview_rate :=
      if 0 < applied_count then round3 (interview_count / applied_count) else 0
    offer_rate :=
      if 0 < applied_count then round3 (offer_count / applied_count) else 0 }

/-! ## Dealflow statistics (dealflow_application_service.py) -/

/-- A `dealflow_applications` row, restricted to the columns
`get_dealflow_stats` reads.  `created_date` is the calendar date of the row's
`created_at` timestamp (the column is NOT NULL with a `now()` default). -/
structure DealflowApplication where
  status : String
  emails_sent : Int
  meetings_held : Int
  created_date : Int
  last_contact_date : Option Int
  intro_made_to : Option String
  deriving Repr, DecidableEq

/-- The 7-day activity block of `get_dealflow_stats`
(dealflow_application_service.py, lines 195-217). -/
structure DealflowActivity where
  new_startups : Nat
  emails_sent : Int
  meetings_held : Int
  deriving Repr, DecidableEq

/-- The 7-day activity figures of `DealflowApplicationService.get_dealflow_stats`:
`new_startups` counts rows with `created_at >= datetime.combine(today - 7, midnight)`
(equivalently, created on day `today - 7` or later); the email and meeting sums
range over rows with `last_contact_date >= today - 7` (NULL dates excluded), with
an empty sum defaulting to 0. -/
def dealflow_activity_last_7_days (rows : List DealflowApplication)
    (today : Int) : DealflowActivity :=
  let seven_days_ago := today - 7
  let contacted_recently := rows.filter (fun r =>
    match r.last_contact_date with
    | some d => seven_days_ago ≤ d
    | none => false)
  { new_startups := rows.countP (fun r => seven_days_ago ≤ r.created_date)
    emails_sent := (contacted_recently.map (fun r => r.emails_sent)).sum
    meetings_held := (contacted_recently.map (fun r => r.meetings_held)).sum }

/-! ## The scrape-and-ingest pipeline (scraping.py, dealflow_scraping.py)

The database is a list of records.  A search call is modelled as an
`Except String (List _)` value: `Except.error e` models the call raising an
exception whose stringified form is `e`.  Per-candidate processing can also
raise; the parts of a candidate that decide this are modelled explicitly
(required fields of the pydantic schema, the natural key), and every further
failure source that is not determined by those fields (a database error during
insert, validation of the untracked optional fields) is folded into a single
`otherFailure` flag on the candidate. -/

/-- A row of the `jobs` table restricted to the fields the scraping pipeline
touches.  `source_url` is NOT NULL (and unique) at the storage level
(src/backend/app/models/job.py). -/
structure JobRec where
  title : String
  company : String
  source : String
  source_url : String
  deriving Repr, DecidableEq

/-- A raw candidate dict produced by `ExaService.search_vc_jobs`.  Fields absent
from the dict are `none` (`job_data.get(...)` returns `None`). -/
structure JobData where
  title : Option String
  company : Option String
  source : Option String
  source_url : Option String
  otherFailure : Bool
  deriving Repr, DecidableEq

/-- `JobCreate(**job_data)` succeeds: per src/backend/app/schemas/job.py,
`title` (1–255 chars), `company` (1–255 chars), `source` (≤ 50 chars) and
`source_url` (≤ 500 chars) are required fields. -/
def jobCreateValid (c : JobData) : Bool :=
  match c.title, c.company, c.source, c.source_url with
  | some t, some co, some s, some u =>
      1 ≤ t.length && t.length ≤ 255 && 1 ≤ co.length && co.length ≤ 255 &&
        s.length ≤ 50 && u.length ≤ 500
  | _, _, _, _ => false

/-- The `Job` row built from a validated candidate. -/
def mkJob (c : JobData) : JobRec :=
  { title := c.title.getD ""
    company := c.company.getD ""
    source := c.source.getD ""
    source_url := c.source_url.getD "" }

/-- The rows returned by
`select(Job).where(Job.source_url == job_data.get('source_url'))`: comparing the
NOT NULL column with `None` renders `IS NULL` and matches no row. -/
def jobMatches (db : List JobRec) (key : Option String) : List JobRec :=
  match key with
  | none => []
  | some u => db.filter (fun r => r.source_url = u)

/-- A row of the `startups` table restricted to the fields the pipeline
touches; `website` is a nullable column and is not unique at the storage level
(src/backend/app/models/startup.py). -/
structure StartupRec where
  name : String
  source : String
  website : Option String
  deriving Repr, DecidableEq

/-- A raw candidate dict produced by `ExaDealflowService.search_startups`. -/
structure StartupData where
  name : Option String
  source : Option String
  website : Option String
  otherFailure : Bool
  deriving Repr, DecidableEq

/-- `StartupCreate(**startup_data)` succeeds: per
src/backend/app/schemas/startup.py, `name` (≤ 255 chars) and `source`
(≤ 50 chars) are required; `website` is optional (≤ 500 chars). -/
def startupCreateValid (c : StartupData) : Bool :=
  match c.name, c.source with
  | some n, some s =>
      n.length ≤ 255 && s.length ≤ 50 &&
        (match c.website with
         | some w => w.length ≤ 500
         | none => true)
  | _, _ => false

/-- The `Startup` row built from a validated candidate. -/
def mkStartup (c : StartupData) : StartupRec :=
  { name := c.name.getD ""
    source := c.source.getD ""
    website := c.website }

/-- How one loop iteration classified its candidate: inserted as new, skipped
as a duplicate, or recovered from a per-candidate exception. -/
inductive StepKind
  | new
  | dup
  | err
  deriving Repr, DecidableEq

/-- One iteration of the job ingest loop (scraping.py, lines 76-97): look up
the candidate's `source_url`; `scalar_one_or_none` raises on two or more
matches (caught by the per-candidate handler); one match is skipped as a
duplicate; otherwise `JobCreate` validation and the insert run, any exception
being caught by the per-candidate handler.  `dup` and `err` are both counted
as skipped by the loop. -/
def processJob (db : List JobRec) (c : JobData) : List JobRec × StepKind :=
  let ms := jobMatches db c.source_url
  if 2 ≤ ms.length then
    (db, StepKind.err)
  else if ms.length = 1 then
    (db, StepKind.dup)
  else if jobCreateValid c && !c.otherFailure then
    (db ++ [mkJob c], StepKind.new)
  else
    (db, StepKind.err)

/-- One iteration of the startup ingest loop (dealflow_scraping.py, lines
76-100): the duplicate check runs only when the candidate has a `website`;
otherwise construction and insert run directly. -/
def processStartup (db : List StartupRec) (c : StartupData) :
    List StartupRec × StepKind :=
  match c.website with
  | some w =>
      let ms := db.filter (fun r => r.website = some w)
      if 2 ≤ ms.length then
        (db, StepKind.err)
      else if ms.length = 1 then
        (db, StepKind.dup)
      else if startupCreateValid c && !c.otherFailure then
        (db ++ [mkStartup c], StepKind.new)
      else
        (db, StepKind.err)
  | none =>
      if startupCreateValid c && !c.otherFailure then
        (db ++ [mkStartup c], StepKind.new)
      else
        (db, StepKind.err)

/-- The iteration over a job candidate raises an exception (which the loop's
`except` clause recovers from): either `scalar_one_or_none` sees two or more
matching rows, or no match is found and construction or insert fails. -/
def jobStepRaises (db : List JobRec) (c : JobData) : Prop :=
  2 ≤ (jobMatches db c.source_url).length ∨
    ((jobMatches db c.source_url).length = 0 ∧
      (jobCreateValid c = false ∨ c.otherFailure = true))

/-- The iteration over a startup candidate raises an exception: with a
`website`, either the lookup sees two or more matches or no match is found and
construction/insert fails; without one, construction/insert fails. -/
def startupStepRaises (db : List StartupRec) (c : StartupData) : Prop :=
  match c.website with
  | some w =>
      2 ≤ (db.filter (fun r => r.website = some w)).length ∨
        ((db.filter (fun r => r.website = some w)).length = 0 ∧
          (startupCreateValid c = false ∨ c.otherFailure = true))
  | none => startupCreateValid c = false ∨ c.otherFailure = true

/-- The per-candidate loop shared by both pipelines: threads the database
through the iterations and counts new rows and skipped candidates (`dup` and
`err` alike increment the skip counter, `jobs_skipped` / `startups_skipped` in
the source). -/
def ingestLoop {R D : Type} (process : List R → D → List R × StepKind) :
    List R → List D → List R × Nat × Nat
  | db, [] => (db, 0, 0)
  | db, c :: cs =>
      match process db c with
      | (db', StepKind.new) =>
          let rest := ingestLoop process db' cs
          (rest.1, rest.2.1 + 1, rest.2.2)
      | (db', StepKind.dup) =>
          let rest := ingestLoop process db' cs
          (rest.1, rest.2.1, rest.2.2 + 1)
      | (db', StepKind.err) =>
          let rest := ingestLoop process db' cs
          (rest.1, rest.2.1, rest.2.2 + 1)

/-- The number of candidates whose `source_url` matches a record already in
the given store. -/
def preexistingJobDupCount (db : List JobRec) (cands : List JobData) : Nat :=
  cands.countP (fun c => 0 < (jobMatches db c.source_url).length)

/-- The number of candidates whose `website` matches a record already in the
given store (a candidate without a website matches nothing). -/
def preexistingStartupDupCount (db : List StartupRec)
    (cands : List StartupData) : Nat :=
  cands.countP (fun c =>
    match c.website with
    | some w => 0 < (db.filter (fun r => r.website = some w)).length
    | none => false)

/-- A `scraping_logs` row (src/backend/app/models/scraping_log.py); the
`jobs_*` count columns are reused for startups. -/
structure LogRow where
  source : String
  status : String
  jobs_found : Nat
  jobs_new : Nat
  jobs_updated : Nat
  error_message : Option String
  started_at : Int
  completed_at : Option Int
  duration_seconds : Option Int
  deriving Repr, DecidableEq

/-- The log row as created at the start of a run: status `"started"`, counts at
their column defaults, no completion timestamp and no duration. -/
def initialLog (source : String) (t0 : Int) : LogRow :=
  { source := source
    status := "started"
    jobs_found := 0
    jobs_new := 0
    jobs_updated := 0
    error_message := none
    started_at := t0
    completed_at := none
    duration_seconds := none }

/-- The dict returned by a scrape run (keys `jobs_found`/`jobs_new`/… for the
job pipeline, `startups_found`/`startups_new`/… for the dealflow pipeline). -/
structure RunSummary where
  status : String
  found_count : Nat
  new_count : Nat
  updated_count : Nat
  duplicates_removed : Nat
  duration_seconds : Int
  deriving Repr, DecidableEq

/-- The observable outcome of a scrape invocation: the final database, the
`ScrapingLog` rows it persisted, and either the returned summary or the
re-raised exception. -/
structure RunOutcome (R : Type) where
  db : List R
  logs : List LogRow
  result : Except String RunSummary
  deriving Repr

/-- `ScrapingService.run_scraping_job` (scraping.py, lines 29-143).  `t0` is
`started_at`, `t1` the `completed_at` taken on the terminal transition.  If the
search call raises, the log row is finalized as failed with the stringified
exception and the exception is re-raised; otherwise the ingest loop runs and
the log row is finalized as completed. -/
def run_scraping_job (db0 : List JobRec)
    (search : Except String (List JobData)) (t0 t1 : Int) : RunOutcome JobRec :=
  match search with
  | Except.error e =>
      { db := db0
        logs := [{ initialLog "exa" t0 with
                    status := "failed"
                    error_message := some e
                    completed_at := some t1
                    duration_seconds := some (t1 - t0) }]
        result := Except.error e }
  | Except.ok cands =>
      let (db', jobs_new, jobs_skipped) := ingestLoop processJob db0 cands
      { db := db'
        logs := [{ initialLog "exa" t0 with
                    status := "completed"
                    jobs_found := cands.length
                    jobs_new := jobs_new
                    jobs_updated := 0
                    completed_at := some t1
                    duration_seconds := some (t1 - t0) }]
        result := Except.ok
          { status := "completed"
            found_count := cands.length
            new_count := jobs_new
            updated_count := 0
            duplicates_removed := jobs_skipped
            duration_seconds := t1 - t0 } }

/-- `ScrapingService.search_vc_firms` (scraping.py, lines 145-157): builds a
combined query string and delegates to `run_scraping_job`; the query text is
irrelevant to the persisted state, so only the delegation is modelled. -/
def search_vc_firms (db0 : List JobRec)
    (search : Except String (List JobData)) (t0 t1 : Int) : RunOutcome JobRec :=
  run_scraping_job db0 search t0 t1

/-- `DealflowScrapingService.run_dealflow_scrape` (dealflow_scraping.py, lines
29-146), structurally identical to the job run with `website` as the natural
key and source tag `"exa-dealflow"`. -/
def run_dealflow_scrape (db0 : List StartupRec)
    (search : Except String (List StartupData)) (t0 t1 : Int) :
    RunOutcome StartupRec :=
  match search with
  | Except.error e =>
      { db := db0
        logs := [{ initialLog "exa-dealflow" t0 with
                    status := "failed"
                    error_message := some e
                    completed_at := some t1
                    duration_seconds := some (t1 - t0) }]
        result := Except.error e }
  | Except.ok cands =>
      let (db', startups_new, startups_skipped) :=
        ingestLoop processStartup db0 cands
      { db := db'
        logs := [{ initialLog "exa-dealflow" t0 with
                    status := "completed"
                    jobs_found := cands.length
                    jobs_new := startups_new
                    jobs_updated := 0
                    completed_at := some t1
                    duration_seconds := some (t1 - t0) }]
        result := Except.ok
          { status := "completed"
            found_count := cands.length
            new_count := startups_new
            updated_count := 0
            duplicates_removed := startups_skipped
            duration_seconds := t1 - t0 } }

/-- The sequential search sub-calls of the batch variants: the first raising
call propagates its exception; otherwise the candidate lists are concatenated
in order. -/
def combineBatchResults :
    List (Except String (List StartupData)) → Except String (List StartupData)
  | [] => Except.ok []
  | Except.error e :: _ => Except.error e
  | Except.ok xs :: rest =>
      match combineBatchResults rest with
      | Except.error e => Except.error e
      | Except.ok ys => Except.ok (xs ++ ys)

/-- `DealflowScrapingService.search_accelerators` (dealflow_scraping.py, lines
148-215): accumulates candidates from one search per accelerator batch, runs
the ingest loop over the combined list, and returns a summary — without ever
creating a `ScrapingLog` row.  `t0` is taken only after all search calls. -/
def search_accelerators (db0 : List StartupRec)
    (batchResults : List (Except String (List StartupData))) (t0 t1 : Int) :
    RunOutcome StartupRec :=
  match combineBatchResults batchResults with
  | Except.error e => { db := db0, logs := [], result := Except.error e }
  | Except.ok all_startups =>
      let (db', total_new, total_skipped) :=
        ingestLoop processStartup db0 all_startups
      { db := db'
        logs := []
        result := Except.ok
          { status := "completed"
            found_count := all_startups.length
            new_count := total_new
            updated_count := 0
            duplicates_removed := total_skipped
            duration_seconds := t1 - t0 } }

/-- `DealflowScrapingService.search_sectors` (dealflow_scraping.py, lines
217-283): one search per sector, then the same log-less ingest phase as
`search_accelerators`. -/
def search_sectors (db0 : List StartupRec)
    (sectorResults : List (Except String (List StartupData))) (t0 t1 : Int) :
    RunOutcome StartupRec :=
  match combineBatchResults sectorResults with
  | Except.error e => { db := db0, logs := [], result := Except.error e }
  | Except.ok all_startups =>
      let (db', total_new, total_skipped) :=
        ingestLoop processStartup db0 all_startups
      { db := db'
        logs := []
        result := Except.ok
          { status := "completed"
            found_count := all_startups.length
            new_count := total_new
            updated_count := 0
            duplicates_removed := total_skipped
            duration_seconds := t1 - t0 } }

end VCTracker

namespace VCTracker

/-! ## Rounding lemmas -/

/-- `roundHalfEven` lands on the floor or the floor plus one. -/
lemma roundHalfEven_mem (x : ℚ) :
    roundHalfEven x = ⌊x⌋ ∨ roundHalfEven x = ⌊x⌋ + 1 := by
  unfold roundHalfEven
  split_ifs <;> simp

/-- `roundHalfEven` is nonnegative on nonnegative inputs. -/
lemma roundHalfEven_nonneg (x : ℚ) (hx : 0 ≤ x) : 0 ≤ roundHalfEven x := by
  have hf : (0 : ℤ) ≤ ⌊x⌋ := Int.le_floor.mpr (by exact_mod_cast hx)
  rcases roundHalfEven_mem x with h | h <;> omega

/-- `roundHalfEven` does not exceed an integer bound on the input. -/
lemma roundHalfEven_le (x : ℚ) (n : ℤ) (hx : x ≤ n) : roundHalfEven x ≤ n := by
  have hfle : ⌊x⌋ ≤ n := (Int.floor_le_floor hx).trans_eq (Int.floor_intCast n)
  rcases lt_or_eq_of_le hfle with hlt | heq
  · rcases roundHalfEven_mem x with h | h <;> omega
  · have hxn : (n : ℚ) ≤ x := heq ▸ Int.floor_le x
    have hxeq : x = (n : ℚ) := le_antisymm hx hxn
    have hfr : Int.fract x = 0 := by
      rw [hxeq]; exact Int.fract_intCast n
    unfold roundHalfEven
    rw [hfr]
    norm_num [heq]

/-- `round3` maps `[0, 1]` into `[0, 1]`. -/
lemma round3_mem_unit (x : ℚ) (h0 : 0 ≤ x) (h1 : x ≤ 1) :
    0 ≤ round3 x ∧ round3 x ≤ 1 := by
  unfold round3
  constructor
  · have := roundHalfEven_nonneg (1000 * x) (by positivity)
    positivity
  · have h : roundHalfEven (1000 * x) ≤ (1000 : ℤ) :=
      roundHalfEven_le (1000 * x) 1000 (by push_cast; linarith)
    rw [div_le_one (by norm_num)]
    exact_mod_cast h

/-! ## Claim C2 — streak state machine -/

/-- C2: for every prior streak state and both activity types, `update_streak`
follows the four-case table: unset date → counter 1 and date today; date = today
→ no-op; date = today − 1 → counter + 1 and date today; any other stored date
(gap ≥ 2 days or a future date) → counter reset to 1 and date today. -/
theorem update_streak_state_machine (s : UserSettings) (today : Int) :
    ((s.job_application_streak_updated = none →
        update_streak s "job" today =
          { s with job_application_streak := 1
                   job_application_streak_updated := some today }) ∧
     (s.job_application_streak_updated = some today →
        update_streak s "job" today = s) ∧
     (s.job_application_streak_updated = some (today - 1) →
        update_streak s "job" today =
          { s with job_application_streak := s.job_application_streak + 1
                   job_application_streak_updated := some today }) ∧
     (∀ d, s.job_application_streak_updated = some d → d ≠ today →
        d ≠ today - 1 →
        update_streak s "job" today =
          { s with job_application_streak := 1
                   job_application_streak_updated := some today })) ∧
    ((s.dealflow_sourcing_streak_updated = none →
        update_streak s "dealflow" today =
          { s with dealflow_sourcing_streak := 1
                   dealflow_sourcing_streak_updated := some today }) ∧
     (s.dealflow_sourcing_streak_updated = some today →
        update_streak s "dealflow" today = s) ∧
     (s.dealflow_sourcing_streak_updated = some (today - 1) →
        update_streak s "dealflow" today =
          { s with dealflow_sourcing_streak := s.dealflow_sourcing_streak + 1
                   dealflow_sourcing_streak_updated := some today }) ∧
     (∀ d, s.dealflow_sourcing_streak_updated = some d → d ≠ today →
        d ≠ today - 1 →
        update_streak s "dealflow" today =
          { s with dealflow_sourcing_streak := 1
                   dealflow_sourcing_streak_updated := some today })) := by
  refine ⟨⟨?_, ?_, ?_, ?_⟩, ⟨?_, ?_, ?_, ?_⟩⟩ <;>
    first
      | (intro h; simp [update_streak, h])
      | (intro d h hne hne'; simp [update_streak, h, hne, hne'])

/-- Witness for `update_streak_state_machine` at a concrete state: a job streak
of 4 last updated yesterday (day 9, today = 10) increments to 5. -/
theorem update_streak_state_machine_witness :
    update_streak ⟨10, 5, 4, some 9, 2, none⟩ "job" 10 =
      ⟨10, 5, 5, some 10, 2, none⟩ :=
  ((update_streak_state_machine ⟨10, 5, 4, some 9, 2, none⟩ 10).1.2.2.1
    (by norm_num)).trans rfl

/-! ## Claim C10 — unknown activity types -/

/-- C10: calling `update_streak` with an activity type other than `"job"` or
`"dealflow"` raises no error and returns the settings record unchanged (both
counters and both dates keep their values). -/
theorem update_streak_unknown_type (s : UserSettings) (a : String) (today : Int)
    (hj : a ≠ "job") (hd : a ≠ "dealflow") :
    update_streak s a today = s := by
  simp [update_streak, hj, hd]

/-- Witness for `update_streak_unknown_type`: activity type `"meeting"` leaves a
concrete settings record untouched. -/
theorem update_streak_unknown_type_witness :
    update_streak ⟨10, 5, 3, some 7, 2, some 6⟩ "meeting" 8 =
      ⟨10, 5, 3, some 7, 2, some 6⟩ :=
  update_streak_unknown_type ⟨10, 5, 3, some 7, 2, some 6⟩ "meeting" 8
    (by decide) (by decide)

/-! ## Claim C3 — conversion rates -/

/-- Unfolding the `response_rate` field of `get_application_stats`. -/
lemma response_rate_eq (apps : List Application) (today : Int) :
    (get_application_stats apps today).response_rate =
      if 0 < appliedCount apps then
        round3 (((countStatus apps "interviewing" + countStatus apps "rejected"
            + countStatus apps "offer" + countStatus apps "accepted" : ℕ) : ℚ) /
          ((appliedCount apps : ℕ) : ℚ))
      else 0 := rfl

/-- Unfolding the `interview_rate` field of `get_application_stats`. -/
lemma interview_rate_eq (apps : List Application) (today : Int) :
    (get_application_stats apps today).interview_rate =
      if 0 < appliedCount apps then
        round3 (((countStatus apps "interviewing" + countStatus apps "offer"
            + countStatus apps "accepted" : ℕ) : ℚ) /
          ((appliedCount apps : ℕ) : ℚ))
      else 0 := rfl

/-- Unfolding the `offer_rate` field of `get_application_stats`. -/
lemma offer_rate_eq (apps : List Application) (today : Int) :
    (get_application_stats apps today).offer_rate =
      if 0 < appliedCount apps then
        round3 (((countStatus apps "offer" + countStatus apps "accepted" : ℕ) :
            ℚ) / ((appliedCount apps : ℕ) : ℚ))
      else 0 := rfl

/-- `round(0, 3) = 0`. -/
lemma round3_zero : round3 0 = 0 := by
  norm_num [round3, roundHalfEven]

/-- C3 counterexample: a single application with status `"applied"` gives
`applied_count = 1` yet all three rates are 0, so "each rate equals 0 exactly
when `applied_count = 0`" fails (the right-to-left direction of the claimed
equivalence does not hold). -/
theorem application_rates_zero_with_nonzero_denominator :
    appliedCount [⟨"applied", none, none⟩] = 1 ∧
    (get_application_stats [⟨"applied", none, none⟩] 0).response_rate = 0 ∧
    (get_application_stats [⟨"applied", none, none⟩] 0).interview_rate = 0 ∧
    (get_application_stats [⟨"applied", none, none⟩] 0).offer_rate = 0 := by
  refine ⟨by decide, ?_, ?_, ?_⟩ <;>
    · first
        | rw [response_rate_eq] | rw [interview_rate_eq] | rw [offer_rate_eq]
      rw [if_pos (by decide)]
      norm_num [show appliedCount [⟨"applied", none, none⟩] = 1 from rfl,
        show countStatus [⟨"applied", none, none⟩] "interviewing" = 0 from rfl,
        show countStatus [⟨"applied", none, none⟩] "rejected" = 0 from rfl,
        show countStatus [⟨"applied", none, none⟩] "offer" = 0 from rfl,
        show countStatus [⟨"applied", none, none⟩] "accepted" = 0 from rfl,
        round3_zero]

/-- C3 amended: each of the three rates lies in `[0, 1]`, and each equals 0
whenever `applied_count = 0` (the converse fails: a rate can be 0 with a
positive `applied_count` when its numerator is 0). -/
theorem application_rates_amended (apps : List Application) (today : Int) :
    (0 ≤ (get_application_stats apps today).response_rate ∧
      (get_application_stats apps today).response_rate ≤ 1) ∧
    (0 ≤ (get_application_stats apps today).interview_rate ∧
      (get_application_stats apps today).interview_rate ≤ 1) ∧
    (0 ≤ (get_application_stats apps today).offer_rate ∧
      (get_application_stats apps today).offer_rate ≤ 1) ∧
    (appliedCount apps = 0 →
      (get_application_stats apps today).response_rate = 0 ∧
      (get_application_stats apps today).interview_rate = 0 ∧
      (get_application_stats apps today).offer_rate = 0) := by
  rw [response_rate_eq, interview_rate_eq, offer_rate_eq]
  by_cases h : 0 < appliedCount apps
  · have hpos : (0 : ℚ) < ((appliedCount apps : ℕ) : ℚ) := by exact_mod_cast h
    have hbound : ∀ n : ℕ, n ≤ appliedCount apps →
        0 ≤ round3 ((n : ℚ) / ((appliedCount apps : ℕ) : ℚ)) ∧
        round3 ((n : ℚ) / ((appliedCount apps : ℕ) : ℚ)) ≤ 1 := by
      intro n hn
      exact round3_mem_unit _ (by positivity)
        ((div_le_one hpos).mpr (by exact_mod_cast hn))
    rw [if_pos h, if_pos h, if_pos h]
    exact ⟨hbound _ (by unfold appliedCount; omega),
      hbound _ (by unfold appliedCount; omega),
      hbound _ (by unfold appliedCount; omega),
      fun h0 => absurd h0 (by omega)⟩
  · rw [if_neg h, if_neg h, if_neg h]
    norm_num

/-- Witness for `application_rates_amended` at a concrete input: an empty
application set has `applied_count = 0` and all three rates equal to 0. -/
theorem application_rates_amended_witness :
    (get_application_stats [] 0).response_rate = 0 ∧
    (get_application_stats [] 0).interview_rate = 0 ∧
    (get_application_stats [] 0).offer_rate = 0 :=
  (application_rates_amended [] 0).2.2.2 (by decide)

/-! ## Claim C4 — the trailing activity window -/

/-- C4 counterexample: with `today = 0`, an application whose `applied_date` is
`today − 7` is counted by `recent_applications`, although `today − 7` lies
outside the claimed inclusive window `[today − 6, today]`. -/
theorem recent_window_counterexample :
    (get_application_stats [⟨"saved", some (-7), none⟩] 0).recent_applications
        = 1 ∧
    ¬ ((0 : Int) - 6 ≤ -7) := by
  refine ⟨by decide, by decide⟩

/-- C4 amended: the recent-activity figures count exactly the rows whose
relevant date is at least `today − 7` — an eight-day inclusive window for past
dates with no upper bound (future dates are also counted).  Stated as the
effect of adding one row to each statistic. -/
theorem stats_trailing_window_amended (apps : List Application)
    (rows : List DealflowApplication) (a : Application)
    (r : DealflowApplication) (today : Int) :
    (∀ d, a.applied_date = some d → today - 7 ≤ d →
      (get_application_stats (a :: apps) today).recent_applications =
        (get_application_stats apps today).recent_applications + 1) ∧
    (∀ d, a.applied_date = some d → d < today - 7 →
      (get_application_stats (a :: apps) today).recent_applications =
        (get_application_stats apps today).recent_applications) ∧
    (a.applied_date = none →
      (get_application_stats (a :: apps) today).recent_applications =
        (get_application_stats apps today).recent_applications) ∧
    (today - 7 ≤ r.created_date →
      (dealflow_activity_last_7_days (r :: rows) today).new_startups =
        (dealflow_activity_last_7_days rows today).new_startups + 1) ∧
    (r.created_date < today - 7 →
      (dealflow_activity_last_7_days (r :: rows) today).new_startups =
        (dealflow_activity_last_7_days rows today).new_startups) ∧
    (∀ d, r.last_contact_date = some d → today - 7 ≤ d →
      (dealflow_activity_last_7_days (r :: rows) today).emails_sent =
        (dealflow_activity_last_7_days rows today).emails_sent +
          r.emails_sent ∧
      (dealflow_activity_last_7_days (r :: rows) today).meetings_held =
        (dealflow_activity_last_7_days rows today).meetings_held +
          r.meetings_held) ∧
    (∀ d, r.last_contact_date = some d → d < today - 7 →
      (dealflow_activity_last_7_days (r :: rows) today).emails_sent =
        (dealflow_activity_last_7_days rows today).emails_sent ∧
      (dealflow_activity_last_7_days (r :: rows) today).meetings_held =
        (dealflow_activity_last_7_days rows today).meetings_held) ∧
    (r.last_contact_date = none →
      (dealflow_activity_last_7_days (r :: rows) today).emails_sent =
        (dealflow_activity_last_7_days rows today).emails_sent ∧
      (dealflow_activity_last_7_days (r :: rows) today).meetings_held =
        (dealflow_activity_last_7_days rows today).meetings_held) := by
  refine ⟨?_, ?_, ?_, ?_, ?_, ?_, ?_, ?_⟩
  · intro d hd hle
    have h7 : today ≤ d + 7 := by omega
    simp [get_application_stats, List.countP_cons, hd, hle, h7]
  · intro d hd hlt
    have h7 : ¬ today ≤ d + 7 := by omega
    simp [get_application_stats, List.countP_cons, hd, h7]
  · intro hd
    simp [get_application_stats, List.countP_cons, hd]
  · intro hle
    have h7 : today ≤ r.created_date + 7 := by omega
    simp [dealflow_activity_last_7_days, List.countP_cons, hle, h7]
  · intro hlt
    have h7 : ¬ today ≤ r.created_date + 7 := by omega
    simp [dealflow_activity_last_7_days, List.countP_cons, h7]
  · intro d hd hle
    have h7 : today ≤ d + 7 := by omega
    constructor <;>
      simp [dealflow_activity_last_7_days, List.filter_cons, hd, hle, h7,
        add_comm]
  · intro d hd hlt
    have h7 : ¬ today ≤ d + 7 := by omega
    constructor <;>
      simp [dealflow_activity_last_7_days, List.filter_cons, hd, h7]
  · intro hd
    constructor <;>
      simp [dealflow_activity_last_7_days, List.filter_cons, hd]

/-- Witness for `stats_trailing_window_amended` at concrete rows: with
`today = 0`, an application dated `−7` raises the recent count from 0 to 1. -/
theorem stats_trailing_window_amended_witness :
    (get_application_stats [⟨"saved", some (-7), none⟩] 0).recent_applications
      = (get_application_stats [] 0).recent_applications + 1 :=
  (stats_trailing_window_amended [] [] ⟨"saved", some (-7), none⟩
      ⟨"sourced", 0, 0, 0, none, none⟩ 0).1 (-7) rfl (by norm_num)

/-! ## Ingest-loop lemmas -/

/-- Unfolding `ingestLoop` when the head candidate is inserted as new. -/
lemma ingestLoop_cons_new {R D : Type} (process : List R → D → List R × StepKind)
    (db db' : List R) (c : D) (cs : List D)
    (h : process db c = (db', StepKind.new)) :
    ingestLoop process db (c :: cs) =
      ((ingestLoop process db' cs).1, (ingestLoop process db' cs).2.1 + 1,
        (ingestLoop process db' cs).2.2) := by
  simp [ingestLoop, h]

/-- Unfolding `ingestLoop` when the head candidate is skipped as a duplicate. -/
lemma ingestLoop_cons_dup {R D : Type} (process : List R → D → List R × StepKind)
    (db db' : List R) (c : D) (cs : List D)
    (h : process db c = (db', StepKind.dup)) :
    ingestLoop process db (c :: cs) =
      ((ingestLoop process db' cs).1, (ingestLoop process db' cs).2.1,
        (ingestLoop process db' cs).2.2 + 1) := by
  simp [ingestLoop, h]

/-- Unfolding `ingestLoop` when the head candidate's iteration raises: the loop
recovers, keeps the database, counts the candidate as skipped and proceeds with
the remaining candidates. -/
lemma ingestLoop_cons_err {R D : Type} (process : List R → D → List R × StepKind)
    (db db' : List R) (c : D) (cs : List D)
    (h : process db c = (db', StepKind.err)) :
    ingestLoop process db (c :: cs) =
      ((ingestLoop process db' cs).1, (ingestLoop process db' cs).2.1,
        (ingestLoop process db' cs).2.2 + 1) := by
  simp [ingestLoop, h]

/-- Every candidate is counted exactly once: new count plus skip count equals
the number of candidates. -/
lemma ingestLoop_counts_sum {R D : Type}
    (process : List R → D → List R × StepKind) :
    ∀ (cs : List D) (db : List R),
      (ingestLoop process db cs).2.1 + (ingestLoop process db cs).2.2 =
        cs.length := by
  intro cs
  induction cs with
  | nil => intro db; rfl
  | cons c cs ih =>
      intro db
      rcases h : process db c with ⟨db', k⟩
      cases k
      · rw [ingestLoop_cons_new process db db' c cs h]
        have := ih db'
        simp only [List.length_cons]
        omega
      · rw [ingestLoop_cons_dup process db db' c cs h]
        have := ih db'
        simp only [List.length_cons]
        omega
      · rw [ingestLoop_cons_err process db db' c cs h]
        have := ih db'
        simp only [List.length_cons]
        omega

/-- If each step only appends to the database, so does the whole loop. -/
lemma ingestLoop_extends {R D : Type}
    (process : List R → D → List R × StepKind)
    (hp : ∀ (db : List R) (c : D), ∃ t, (process db c).1 = db ++ t) :
    ∀ (cs : List D) (db : List R),
      ∃ t, (ingestLoop process db cs).1 = db ++ t := by
  intro cs
  induction cs with
  | nil => intro db; exact ⟨[], by simp [ingestLoop]⟩
  | cons c cs ih =>
      intro db
      rcases h : process db c with ⟨db', k⟩
      obtain ⟨t0, ht0⟩ := hp db c
      rw [h] at ht0
      simp only at ht0
      subst ht0
      obtain ⟨t1, ht1⟩ := ih (db ++ t0)
      cases k
      · rw [ingestLoop_cons_new process db (db ++ t0) c cs h]
        exact ⟨t0 ++ t1, by simp [ht1]⟩
      · rw [ingestLoop_cons_dup process db (db ++ t0) c cs h]
        exact ⟨t0 ++ t1, by simp [ht1]⟩
      · rw [ingestLoop_cons_err process db (db ++ t0) c cs h]
        exact ⟨t0 ++ t1, by simp [ht1]⟩

/-! ## Per-candidate step lemmas -/

/-- A job step either keeps the database or appends one row. -/
lemma processJob_extends (db : List JobRec) (c : JobData) :
    ∃ t, (processJob db c).1 = db ++ t := by
  unfold processJob
  by_cases h2 : 2 ≤ (jobMatches db c.source_url).length
  · exact ⟨[], by simp [h2]⟩
  by_cases h1 : (jobMatches db c.source_url).length = 1
  · exact ⟨[], by simp [h2, h1]⟩
  by_cases hv : (jobCreateValid c && !c.otherFailure) = true
  · exact ⟨[mkJob c], by simp [h2, h1, hv]⟩
  · exact ⟨[], by simp [h2, h1, hv]⟩

/-- A startup step either keeps the database or appends one row. -/
lemma processStartup_extends (db : List StartupRec) (c : StartupData) :
    ∃ t, (processStartup db c).1 = db ++ t := by
  unfold processStartup
  rcases hw : c.website with _ | w <;> simp only [hw]
  · by_cases hv : (startupCreateValid c && !c.otherFailure) = true
    · exact ⟨[mkStartup c], by simp [hv]⟩
    · exact ⟨[], by simp [hv]⟩
  · by_cases h2 : 2 ≤ (db.filter (fun r => r.website = some w)).length
    · exact ⟨[], by simp [h2]⟩
    by_cases h1 : (db.filter (fun r => r.website = some w)).length = 1
    · exact ⟨[], by simp [h2, h1]⟩
    by_cases hv : (startupCreateValid c && !c.otherFailure) = true
    · exact ⟨[mkStartup c], by simp [h2, h1, hv]⟩
    · exact ⟨[], by simp [h2, h1, hv]⟩

/-- A job candidate whose `source_url` matches at least one stored row is never
inserted and leaves the database unchanged. -/
lemma processJob_match_skips (db : List JobRec) (c : JobData)
    (h : 0 < (jobMatches db c.source_url).length) :
    (processJob db c).1 = db ∧ (processJob db c).2 ≠ StepKind.new := by
  unfold processJob
  by_cases h2 : 2 ≤ (jobMatches db c.source_url).length
  · simp [h2]
  · have h1 : (jobMatches db c.source_url).length = 1 := by omega
    simp [h2, h1]

/-- A startup candidate whose `website` matches at least one stored row is
never inserted and leaves the database unchanged. -/
lemma processStartup_match_skips (db : List StartupRec) (c : StartupData)
    (w : String) (hw : c.website = some w)
    (h : 0 < (db.filter (fun r => r.website = some w)).length) :
    (processStartup db c).1 = db ∧ (processStartup db c).2 ≠ StepKind.new := by
  unfold processStartup
  simp only [hw]
  by_cases h2 : 2 ≤ (db.filter (fun r => r.website = some w)).length
  · simp [h2]
  · have h1 : (db.filter (fun r => r.website = some w)).length = 1 := by omega
    simp [h2, h1]

/-- A job step that raises is recovered as `err` with the database unchanged. -/
lemma processJob_raises (db : List JobRec) (c : JobData)
    (h : jobStepRaises db c) : processJob db c = (db, StepKind.err) := by
  unfold jobStepRaises at h
  unfold processJob
  rcases h with h2 | ⟨h0, hbad⟩
  · simp [h2]
  · have h2 : ¬ 2 ≤ (jobMatches db c.source_url).length := by omega
    have h1 : ¬ (jobMatches db c.source_url).length = 1 := by omega
    rcases hbad with hv | hf
    · simp [h2, h1, hv]
    · simp [h2, h1, hf]

/-- A startup step that raises is recovered as `err` with the database
unchanged. -/
lemma processStartup_raises (db : List StartupRec) (c : StartupData)
    (h : startupStepRaises db c) : processStartup db c = (db, StepKind.err) := by
  unfold startupStepRaises at h
  unfold processStartup
  rcases hw : c.website with _ | w <;> simp only [hw] at h ⊢
  · rcases h with hv | hf
    · simp [hv]
    · simp [hf]
  · rcases h with h2 | ⟨h0, hbad⟩
    · simp [h2]
    · have h2 : ¬ 2 ≤ (db.filter (fun r => r.website = some w)).length := by
        omega
      have h1 : ¬ (db.filter (fun r => r.website = some w)).length = 1 := by
        omega
      rcases hbad with hv | hf
      · simp [h2, h1, hv]
      · simp [h2, h1, hf]

/-- A job candidate with no match, passing validation, with no insert failure,
is inserted as new. -/
lemma processJob_clean_new (db : List JobRec) (c : JobData)
    (h0 : (jobMatches db c.source_url).length = 0)
    (hv : jobCreateValid c = true) (hf : c.otherFailure = false) :
    processJob db c = (db ++ [mkJob c], StepKind.new) := by
  unfold processJob
  have h2 : ¬ 2 ≤ (jobMatches db c.source_url).length := by omega
  have h1 : ¬ (jobMatches db c.source_url).length = 1 := by omega
  simp [h2, h1, hv, hf]

/-- A job candidate with exactly one match is skipped as a duplicate. -/
lemma processJob_dup (db : List JobRec) (c : JobData)
    (h1 : (jobMatches db c.source_url).length = 1) :
    processJob db c = (db, StepKind.dup) := by
  unfold processJob
  have h2 : ¬ 2 ≤ (jobMatches db c.source_url).length := by omega
  simp [h2, h1]

/-- A startup candidate with no match (or no website), passing validation, with
no insert failure, is inserted as new. -/
lemma processStartup_clean_new (db : List StartupRec) (c : StartupData)
    (h0 : ∀ w, c.website = some w →
      (db.filter (fun r => r.website = some w)).length = 0)
    (hv : startupCreateValid c = true) (hf : c.otherFailure = false) :
    processStartup db c = (db ++ [mkStartup c], StepKind.new) := by
  unfold processStartup
  rcases hw : c.website with _ | w <;> simp only [hw]
  · simp [hv, hf]
  · have h0w := h0 w hw
    have h2 : ¬ 2 ≤ (db.filter (fun r => r.website = some w)).length := by omega
    have h1 : ¬ (db.filter (fun r => r.website = some w)).length = 1 := by omega
    simp [h2, h1, hv, hf]

/-- A startup candidate with exactly one match is skipped as a duplicate. -/
lemma processStartup_dup (db : List StartupRec) (c : StartupData) (w : String)
    (hw : c.website = some w)
    (h1 : (db.filter (fun r => r.website = some w)).length = 1) :
    processStartup db c = (db, StepKind.dup) := by
  unfold processStartup
  simp only [hw]
  have h2 : ¬ 2 ≤ (db.filter (fun r => r.website = some w)).length := by omega
  simp [h2, h1]

/-! ## Claim C5 — a failing search call -/

/-- C5: in both pipelines, when the search call itself raises, the log row
transitions from started to failed with the stringified exception as its error
message, a completion timestamp, and a nonnegative duration; no entity rows are
created, and the exception is re-raised to the caller. -/
theorem search_failure_behavior (dbJ : List JobRec) (dbS : List StartupRec)
    (e : String) (t0 t1 : Int) (hmono : t0 ≤ t1) :
    ((initialLog "exa" t0).status = "started" ∧
     (run_scraping_job dbJ (Except.error e) t0 t1).db = dbJ ∧
     (run_scraping_job dbJ (Except.error e) t0 t1).result = Except.error e ∧
     (run_scraping_job dbJ (Except.error e) t0 t1).logs =
       [{ initialLog "exa" t0 with
            status := "failed"
            error_message := some e
            completed_at := some t1
            duration_seconds := some (t1 - t0) }]) ∧
    ((initialLog "exa-dealflow" t0).status = "started" ∧
     (run_dealflow_scrape dbS (Except.error e) t0 t1).db = dbS ∧
     (run_dealflow_scrape dbS (Except.error e) t0 t1).result =
       Except.error e ∧
     (run_dealflow_scrape dbS (Except.error e) t0 t1).logs =
       [{ initialLog "exa-dealflow" t0 with
            status := "failed"
            error_message := some e
            completed_at := some t1
            duration_seconds := some (t1 - t0) }]) ∧
    0 ≤ t1 - t0 := by
  refine ⟨⟨rfl, rfl, rfl, rfl⟩, ⟨rfl, rfl, rfl, rfl⟩, by omega⟩

/-- Witness for `search_failure_behavior` at concrete times and a concrete
exception message. -/
theorem search_failure_behavior_witness :
    (run_scraping_job [] (Except.error "connection refused") 3 5).result =
      Except.error "connection refused" ∧
    (run_scraping_job [] (Except.error "connection refused") 3 5).db =
      ([] : List JobRec) :=
  ⟨(search_failure_behavior [] [] "connection refused" 3 5
      (by norm_num)).1.2.2.1,
   (search_failure_behavior [] [] "connection refused" 3 5
      (by norm_num)).1.2.1⟩

/-! ## Claim C7 — one log row per invocation -/

/-- C7 counterexample: a `search_sectors` invocation completes (here with one
sector search that returned no candidates) yet creates no `ScrapingLog` row at
all, contradicting "every scrape invocation, including the batch variants,
creates exactly one ScrapingLog row". -/
theorem search_sectors_creates_no_log :
    (search_sectors [] [Except.ok []] 0 0).logs.length = 0 ∧
    (search_sectors [] [Except.ok []] 0 0).result =
      Except.ok ⟨"completed", 0, 0, 0, 0, 0⟩ := by
  exact ⟨rfl, rfl⟩

/-- C7 amended: the single-query runs (`run_scraping_job`,
`run_dealflow_scrape`, and the firm-list variant, which delegates to
`run_scraping_job`) create exactly one `ScrapingLog` row, whose `completed_at`
and `duration_seconds` are unset on creation and set exactly once, on the
terminal transition to completed or failed, with the duration equal to
`completed_at − started_at`; the accelerator- and sector-batch variants create
no `ScrapingLog` row at all. -/
theorem scraping_log_lifecycle_amended (dbJ : List JobRec)
    (dbS : List StartupRec) (searchJ : Except String (List JobData))
    (searchS : Except String (List StartupData))
    (batches sectors : List (Except String (List StartupData)))
    (t0 t1 : Int) :
    ((run_scraping_job dbJ searchJ t0 t1).logs.length = 1 ∧
     ∀ l ∈ (run_scraping_job dbJ searchJ t0 t1).logs,
       l.completed_at = some t1 ∧ l.duration_seconds = some (t1 - t0) ∧
         (l.status = "completed" ∨ l.status = "failed")) ∧
    (search_vc_firms dbJ searchJ t0 t1).logs.length = 1 ∧
    ((run_dealflow_scrape dbS searchS t0 t1).logs.length = 1 ∧
     ∀ l ∈ (run_dealflow_scrape dbS searchS t0 t1).logs,
       l.completed_at = some t1 ∧ l.duration_seconds = some (t1 - t0) ∧
         (l.status = "completed" ∨ l.status = "failed")) ∧
    (initialLog "exa" t0).completed_at = none ∧
    (initialLog "exa" t0).duration_seconds = none ∧
    (initialLog "exa-dealflow" t0).completed_at = none ∧
    (initialLog "exa-dealflow" t0).duration_seconds = none ∧
    (search_accelerators dbS batches t0 t1).logs = [] ∧
    (search_sectors dbS sectors t0 t1).logs = [] := by
  refine ⟨⟨?_, ?_⟩, ?_, ⟨?_, ?_⟩, rfl, rfl, rfl, rfl, ?_, ?_⟩
  · rcases searchJ with e | cands <;> rfl
  · rcases searchJ with e | cands <;>
      · intro l hl
        simp only [run_scraping_job, List.mem_singleton] at hl
        subst hl
        exact ⟨rfl, rfl, by simp⟩
  · rcases searchJ with e | cands <;> rfl
  · rcases searchS with e | cands <;> rfl
  · rcases searchS with e | cands <;>
      · intro l hl
        simp only [run_dealflow_scrape, List.mem_singleton] at hl
        subst hl
        exact ⟨rfl, rfl, by simp⟩
  · rcases h : combineBatchResults batches with e | all <;>
      simp [search_accelerators, h]
  · rcases h : combineBatchResults sectors with e | all <;>
      simp [search_sectors, h]

/-- Witness for `scraping_log_lifecycle_amended` at concrete inputs: an empty
successful run creates exactly one log row, and a sector batch creates none. -/
theorem scraping_log_lifecycle_amended_witness :
    (run_scraping_job [] (Except.ok []) 0 0).logs.length = 1 ∧
    (search_sectors [] [] 0 0).logs = [] :=
  ⟨(scraping_log_lifecycle_amended [] [] (Except.ok []) (Except.ok [])
      [] [] 0 0).1.1,
   (scraping_log_lifecycle_amended [] [] (Except.ok []) (Except.ok [])
      [] [] 0 0).2.2.2.2.2.2.2.2⟩

/-! ## Claim C8 — duplicates are skipped, never updated -/

/-- C8: in both pipelines, a candidate whose natural key matches a stored
record leaves the store unchanged and is never inserted; a whole run only ever
appends to the store (every pre-existing record survives unchanged), and the
updated count — in the returned summary and in the log row — is always 0. -/
theorem duplicates_skipped_never_updated (dbJ : List JobRec)
    (dbS : List StartupRec) (searchJ : Except String (List JobData))
    (searchS : Except String (List StartupData)) (c : JobData)
    (s : StartupData) (t0 t1 : Int) :
    ((0 < (jobMatches dbJ c.source_url).length →
        (processJob dbJ c).1 = dbJ ∧ (processJob dbJ c).2 ≠ StepKind.new) ∧
     (∃ t, (run_scraping_job dbJ searchJ t0 t1).db = dbJ ++ t) ∧
     (∀ r, (run_scraping_job dbJ searchJ t0 t1).result = Except.ok r →
        r.updated_count = 0) ∧
     (∀ l ∈ (run_scraping_job dbJ searchJ t0 t1).logs,
        l.jobs_updated = 0)) ∧
    ((∀ w, s.website = some w →
        0 < (dbS.filter (fun r => r.website = some w)).length →
        (processStartup dbS s).1 = dbS ∧
          (processStartup dbS s).2 ≠ StepKind.new) ∧
     (∃ t, (run_dealflow_scrape dbS searchS t0 t1).db = dbS ++ t) ∧
     (∀ r, (run_dealflow_scrape dbS searchS t0 t1).result = Except.ok r →
        r.updated_count = 0) ∧
     (∀ l ∈ (run_dealflow_scrape dbS searchS t0 t1).logs,
        l.jobs_updated = 0)) := by
  refine ⟨⟨processJob_match_skips dbJ c, ?_, ?_, ?_⟩,
    ⟨fun w hw => processStartup_match_skips dbS s w hw, ?_, ?_, ?_⟩⟩
  · rcases searchJ with e | cands
    · exact ⟨[], by simp [run_scraping_job]⟩
    · obtain ⟨t, ht⟩ := ingestLoop_extends processJob processJob_extends
        cands dbJ
      exact ⟨t, by simp [run_scraping_job, ht]⟩
  · rcases searchJ with e | cands
    · intro r hr
      simp [run_scraping_job] at hr
    · intro r hr
      simp only [run_scraping_job] at hr
      injection hr with hr
      subst hr
      rfl
  · rcases searchJ with e | cands <;>
      · intro l hl
        simp only [run_scraping_job, List.mem_singleton] at hl
        subst hl
        rfl
  · rcases searchS with e | cands
    · exact ⟨[], by simp [run_dealflow_scrape]⟩
    · obtain ⟨t, ht⟩ := ingestLoop_extends processStartup
        processStartup_extends cands dbS
      exact ⟨t, by simp [run_dealflow_scrape, ht]⟩
  · rcases searchS with e | cands
    · intro r hr
      simp [run_dealflow_scrape] at hr
    · intro r hr
      simp only [run_dealflow_scrape] at hr
      injection hr with hr
      subst hr
      rfl
  · rcases searchS with e | cands <;>
      · intro l hl
        simp only [run_dealflow_scrape, List.mem_singleton] at hl
        subst hl
        rfl

/-- Witness for `duplicates_skipped_never_updated`: a candidate matching the
single stored row is skipped and the store is unchanged. -/
theorem duplicates_skipped_never_updated_witness :
    (processJob [⟨"VC Analyst", "Acme", "exa", "https://x.vc/j1"⟩]
        ⟨some "VC Analyst", some "Acme", some "exa", some "https://x.vc/j1",
          false⟩).1 =
      [⟨"VC Analyst", "Acme", "exa", "https://x.vc/j1"⟩] :=
  ((duplicates_skipped_never_updated
      [⟨"VC Analyst", "Acme", "exa", "https://x.vc/j1"⟩] []
      (Except.ok []) (Except.ok [])
      ⟨some "VC Analyst", some "Acme", some "exa", some "https://x.vc/j1",
        false⟩
      ⟨none, none, none, false⟩ 0 0).1.1 (by decide)).1

/-! ## Claim C9 — candidates without a natural key -/

/-- C9 counterexample: a job candidate with no `source_url` (the other required
fields present and well-formed, and no insert failure) is not inserted:
`JobCreate` requires `source_url`, so construction raises, the exception is
recovered, and the run reports `new_count = 0` and `duplicates_removed = 1` —
not `new_count = 1` as the claim requires. -/
theorem job_without_source_url_not_inserted :
    (run_scraping_job []
        (Except.ok [⟨some "VC Analyst", some "Acme Capital", some "exa", none,
          false⟩]) 0 0).result =
      Except.ok ⟨"completed", 1, 0, 0, 1, 0⟩ ∧
    (run_scraping_job []
        (Except.ok [⟨some "VC Analyst", some "Acme Capital", some "exa", none,
          false⟩]) 0 0).db = [] := by
  exact ⟨rfl, rfl⟩

/-- C9 amended: a startup candidate with no `website` skips the duplicate check
entirely and — when construction and insert succeed — is inserted and counted
as new; but a job candidate with no `source_url` never matches a stored row
and always fails `JobCreate` construction (the field is required), so the job
pipeline counts it toward `duplicates_removed` instead of inserting it. -/
theorem absent_natural_key_amended (dbJ : List JobRec) (dbS : List StartupRec)
    (c : JobData) (s : StartupData) :
    (s.website = none → startupCreateValid s = true → s.otherFailure = false →
      processStartup dbS s = (dbS ++ [mkStartup s], StepKind.new)) ∧
    (c.source_url = none →
      jobMatches dbJ c.source_url = [] ∧ jobCreateValid c = false ∧
        processJob dbJ c = (dbJ, StepKind.err)) := by
  constructor
  · intro hw hv hf
    exact processStartup_clean_new dbS s
      (fun w hww => absurd (hw ▸ hww) (by simp)) hv hf
  · intro hu
    have hm : jobMatches dbJ c.source_url = [] := by
      rw [hu]; rfl
    have hv : jobCreateValid c = false := by
      unfold jobCreateValid
      rcases c.title with _ | t <;> rcases c.company with _ | co <;>
        rcases c.source with _ | s' <;> simp [hu]
    refine ⟨hm, hv, processJob_raises dbJ c ?_⟩
    unfold jobStepRaises
    rw [hm]
    exact Or.inr ⟨rfl, Or.inl hv⟩

/-- Witness for `absent_natural_key_amended`: a keyless startup candidate is
inserted as new, and a keyless job candidate is recovered as an error. -/
theorem absent_natural_key_amended_witness :
    processStartup [] ⟨some "Acme AI", some "exa", none, false⟩ =
      ([⟨"Acme AI", "exa", none⟩], StepKind.new) ∧
    processJob [] ⟨some "VC Analyst", some "Acme Capital", some "exa", none,
        false⟩ =
      ([], StepKind.err) :=
  ⟨(absent_natural_key_amended [] [] ⟨some "VC Analyst", some "Acme Capital",
      some "exa", none, false⟩ ⟨some "Acme AI", some "exa", none, false⟩).1
      rfl (by decide) rfl,
   ((absent_natural_key_amended [] [] ⟨some "VC Analyst", some "Acme Capital",
      some "exa", none, false⟩ ⟨some "Acme AI", some "exa", none,
      false⟩).2 rfl).2.2⟩

/-! ## The dedup counting core -/

/-- The central counting lemma for a clean run: if every candidate with
exactly one stored match is skipped as a duplicate, every unmatched candidate
is inserted, no inserted row matches a later candidate, and the store holds at
most one match per candidate, then the skip counter equals the number of
candidates matched against the initial store and the new counter accounts for
all the rest. -/
lemma ingest_dedup_counts {R D : Type}
    (process : List R → D → List R × StepKind) (mtch : R → D → Bool)
    (mk : D → R) :
    ∀ (l : List D) (db : List R),
      (∀ (db' : List R) (c : D), c ∈ l →
        db'.countP (fun r => mtch r c) = 1 →
        process db' c = (db', StepKind.dup)) →
      (∀ (db' : List R) (c : D), c ∈ l →
        db'.countP (fun r => mtch r c) = 0 →
        process db' c = (db' ++ [mk c], StepKind.new)) →
      List.Pairwise (fun a b => mtch (mk a) b = false) l →
      (∀ c ∈ l, db.countP (fun r => mtch r c) ≤ 1) →
      (ingestLoop process db l).2.1 +
          l.countP (fun c => 0 < db.countP (fun r => mtch r c)) = l.length ∧
      (ingestLoop process db l).2.2 =
          l.countP (fun c => 0 < db.countP (fun r => mtch r c)) := by
  intro l
  induction l with
  | nil => intro db _ _ _ _; simp [ingestLoop]
  | cons c cs ih =>
      intro db hdup hnew hpw hu
      obtain ⟨hhead, htail⟩ := List.pairwise_cons.mp hpw
      have hmemc : c ∈ c :: cs := List.mem_cons_self c cs
      have hu_c := hu c hmemc
      by_cases hm : db.countP (fun r => mtch r c) = 0
      · have hstep := hnew db c hmemc hm
        rw [ingestLoop_cons_new process db (db ++ [mk c]) c cs hstep]
        have hstable : ∀ c' ∈ cs,
            (db ++ [mk c]).countP (fun r => mtch r c') =
              db.countP (fun r => mtch r c') := by
          intro c' hc'
          rw [List.countP_append]
          simp [List.countP_cons, hhead c' hc']
        have ihr := ih (db ++ [mk c])
          (fun db' c' hc' => hdup db' c' (List.mem_cons_of_mem c hc'))
          (fun db' c' hc' => hnew db' c' (List.mem_cons_of_mem c hc'))
          htail
          (fun c' hc' => by
            rw [hstable c' hc']
            exact hu c' (List.mem_cons_of_mem c hc'))
        have hcongr : cs.countP
              (fun c' => 0 < (db ++ [mk c]).countP (fun r => mtch r c')) =
            cs.countP (fun c' => 0 < db.countP (fun r => mtch r c')) :=
          List.countP_congr (fun c' hc' => by simp [hstable c' hc'])
        rw [hcongr] at ihr
        have hpc : (decide (0 < db.countP (fun r => mtch r c))) = false := by
          simp [hm]
        rw [List.countP_cons, hpc, if_neg Bool.false_ne_true]
        simp only [List.length_cons]
        omega
      · have hm1 : db.countP (fun r => mtch r c) = 1 := by omega
        have hstep := hdup db c hmemc hm1
        rw [ingestLoop_cons_dup process db db c cs hstep]
        have ihr := ih db
          (fun db' c' hc' => hdup db' c' (List.mem_cons_of_mem c hc'))
          (fun db' c' hc' => hnew db' c' (List.mem_cons_of_mem c hc'))
          htail
          (fun c' hc' => hu c' (List.mem_cons_of_mem c hc'))
        have hpc : (decide (0 < db.countP (fun r => mtch r c))) = true := by
          simp [hm1]
        rw [List.countP_cons, hpc, if_pos rfl]
        simp only [List.length_cons]
        omega

/-- The job dedup query counts the same matches as the Boolean predicate
`some r.source_url = c.source_url`. -/
lemma jobMatches_countP (db : List JobRec) (c : JobData) :
    db.countP (fun r => some r.source_url = c.source_url) =
      (jobMatches db c.source_url).length := by
  rcases h : c.source_url with _ | u
  · simp [jobMatches]
  · have he : jobMatches db (some u) = db.filter (fun r => r.source_url = u) :=
      rfl
    rw [he, ← List.countP_eq_length_filter]
    exact List.countP_congr (fun r _ => by simp)

/-- The startup dedup query counts the same matches as the Boolean predicate
`r.website = c.website && c.website.isSome`. -/
lemma startupMatch_countP (db : List StartupRec) (c : StartupData) :
    db.countP (fun r => r.website = c.website && c.website.isSome) =
      (match c.website with
       | some w => (db.filter (fun r => r.website = some w)).length
       | none => 0) := by
  rcases h : c.website with _ | w <;> simp only [h]
  · simp
  · rw [← List.countP_eq_length_filter]
    exact List.countP_congr (fun r _ => by simp)

/-- A validated job candidate carries a `source_url`. -/
lemma jobCreateValid_isSome (c : JobData) (h : jobCreateValid c = true) :
    ∃ u, c.source_url = some u := by
  unfold jobCreateValid at h
  rcases c.title with _ | t <;> rcases c.company with _ | co <;>
    rcases c.source with _ | s <;> rcases hu : c.source_url with _ | u <;>
    simp [hu] at h ⊢

/-! ## Claim C1 — counts of a clean run -/

/-- C1 counterexample: two identical candidates over an empty store — so N = 2
and M = 0 candidates match a pre-existing record, and no per-candidate
exception occurs — yield `new_count = 1` and `duplicates_removed = 1`, not
`new_count = 2` and `duplicates_removed = 0`: the first insert is committed and
visible to the second candidate's existence check. -/
theorem within_run_duplicate_counterexample :
    preexistingJobDupCount []
      [⟨some "VC Analyst", some "Acme Capital", some "exa",
          some "https://acme.vc/jobs/1", false⟩,
        ⟨some "VC Analyst", some "Acme Capital", some "exa",
          some "https://acme.vc/jobs/1", false⟩] = 0 ∧
    (run_scraping_job []
        (Except.ok [⟨some "VC Analyst", some "Acme Capital", some "exa",
            some "https://acme.vc/jobs/1", false⟩,
          ⟨some "VC Analyst", some "Acme Capital", some "exa",
            some "https://acme.vc/jobs/1", false⟩]) 0 0).result =
      Except.ok ⟨"completed", 2, 1, 0, 1, 0⟩ := by
  exact ⟨by decide, rfl⟩

/-- C1 amended: when the search returns N candidates, M of which match a
pre-existing record by natural key, no per-candidate exception occurs (all
candidates pass schema validation with no insert failure, and the store holds
at most one record per key), and — the amendment — the candidates' natural
keys are pairwise distinct (an inserted row is visible to later existence
checks of the same run), the run returns found = N, new = N − M and
duplicates_removed = M, and the log row transitions started → completed.
Both pipelines. -/
theorem scrape_run_dedup_amended
    (dbJ : List JobRec) (candsJ : List JobData)
    (dbS : List StartupRec) (candsS : List StartupData) (t0 t1 : Int)
    (hJok : ∀ c ∈ candsJ, jobCreateValid c = true ∧ c.otherFailure = false)
    (hJkeys : candsJ.Pairwise (fun a b => a.source_url ≠ b.source_url))
    (hJuniq : ∀ u : String,
      (dbJ.filter (fun r => r.source_url = u)).length ≤ 1)
    (hSok : ∀ c ∈ candsS,
      startupCreateValid c = true ∧ c.otherFailure = false)
    (hSkeys : candsS.Pairwise
      (fun a b => a.website ≠ b.website ∨ a.website = none))
    (hSuniq : ∀ w : String,
      (dbS.filter (fun r => r.website = some w)).length ≤ 1) :
    (run_scraping_job dbJ (Except.ok candsJ) t0 t1).result = Except.ok
      { status := "completed"
        found_count := candsJ.length
        new_count := candsJ.length - preexistingJobDupCount dbJ candsJ
        updated_count := 0
        duplicates_removed := preexistingJobDupCount dbJ candsJ
        duration_seconds := t1 - t0 } ∧
    (∀ l ∈ (run_scraping_job dbJ (Except.ok candsJ) t0 t1).logs,
      l.status = "completed") ∧
    (initialLog "exa" t0).status = "started" ∧
    (run_dealflow_scrape dbS (Except.ok candsS) t0 t1).result = Except.ok
      { status := "completed"
        found_count := candsS.length
        new_count := candsS.length - preexistingStartupDupCount dbS candsS
        updated_count := 0
        duplicates_removed := preexistingStartupDupCount dbS candsS
        duration_seconds := t1 - t0 } ∧
    (∀ l ∈ (run_dealflow_scrape dbS (Except.ok candsS) t0 t1).logs,
      l.status = "completed") ∧
    (initialLog "exa-dealflow" t0).status = "started" := by
  have hJcore := ingest_dedup_counts processJob
    (fun r c => some r.source_url = c.source_url) mkJob candsJ dbJ
    (fun db' c hc h1 => by
      rw [jobMatches_countP] at h1
      exact processJob_dup db' c h1)
    (fun db' c hc h0 => by
      rw [jobMatches_countP] at h0
      exact processJob_clean_new db' c h0 (hJok c hc).1 (hJok c hc).2)
    (hJkeys.imp_of_mem (fun {a b} ha hb hne => by
      obtain ⟨u, hu⟩ := jobCreateValid_isSome a (hJok a ha).1
      simp only [mkJob, hu, Option.getD_some]
      exact decide_eq_false (fun hcontra => hne (by rw [hu, hcontra]))))
    (fun c hc => by
      rw [jobMatches_countP]
      rcases h : c.source_url with _ | u
      · simp [jobMatches]
      · exact hJuniq u)
  have hScore := ingest_dedup_counts processStartup
    (fun r c => r.website = c.website && c.website.isSome) mkStartup candsS dbS
    (fun db' c hc h1 => by
      rw [startupMatch_countP] at h1
      rcases hw : c.website with _ | w <;> rw [hw] at h1
      · exact absurd h1 (by simp)
      · exact processStartup_dup db' c w hw h1)
    (fun db' c hc h0 => by
      rw [startupMatch_countP] at h0
      refine processStartup_clean_new db' c (fun w hw => ?_) (hSok c hc).1
        (hSok c hc).2
      rw [hw] at h0
      exact h0)
    (hSkeys.imp_of_mem (fun {a b} ha hb hrel => by
      rcases hrel with hne | hnone
      · simp [mkStartup, hne]
      · rcases hb' : b.website with _ | w <;> simp [mkStartup, hnone, hb']))
    (fun c hc => by
      rw [startupMatch_countP]
      rcases h : c.website with _ | w
      · simp
      · simpa using hSuniq w)
  have hJM : candsJ.countP
        (fun c => 0 < dbJ.countP (fun r => some r.source_url = c.source_url)) =
      preexistingJobDupCount dbJ candsJ :=
    List.countP_congr (fun c _ => by simp [jobMatches_countP])
  have hSM : candsS.countP
        (fun c => 0 < dbS.countP
          (fun r => r.website = c.website && c.website.isSome)) =
      preexistingStartupDupCount dbS candsS :=
    List.countP_congr (fun c _ => by
      rw [startupMatch_countP]
      rcases h : c.website with _ | w <;> simp [h])
  rw [hJM] at hJcore
  rw [hSM] at hScore
  have hJ1 : (ingestLoop processJob dbJ candsJ).2.1 =
      candsJ.length - preexistingJobDupCount dbJ candsJ := by omega
  have hJ2 : (ingestLoop processJob dbJ candsJ).2.2 =
      preexistingJobDupCount dbJ candsJ := hJcore.2
  have hS1 : (ingestLoop processStartup dbS candsS).2.1 =
      candsS.length - preexistingStartupDupCount dbS candsS := by omega
  have hS2 : (ingestLoop processStartup dbS candsS).2.2 =
      preexistingStartupDupCount dbS candsS := hScore.2
  refine ⟨?_, ?_, rfl, ?_, ?_, rfl⟩
  · have hres : (run_scraping_job dbJ (Except.ok candsJ) t0 t1).result =
        Except.ok
          { status := "completed"
            found_count := candsJ.length
            new_count := (ingestLoop processJob dbJ candsJ).2.1
            updated_count := 0
            duplicates_removed := (ingestLoop processJob dbJ candsJ).2.2
            duration_seconds := t1 - t0 } := rfl
    rw [hres, hJ1, hJ2]
  · intro l hl
    simp only [run_scraping_job, List.mem_singleton] at hl
    subst hl
    rfl
  · have hres : (run_dealflow_scrape dbS (Except.ok candsS) t0 t1).result =
        Except.ok
          { status := "completed"
            found_count := candsS.length
            new_count := (ingestLoop processStartup dbS candsS).2.1
            updated_count := 0
            duplicates_removed := (ingestLoop processStartup dbS candsS).2.2
            duration_seconds := t1 - t0 } := rfl
    rw [hres, hS1, hS2]
  · intro l hl
    simp only [run_dealflow_scrape, List.mem_singleton] at hl
    subst hl
    rfl

/-- Witness for `scrape_run_dedup_amended`: one fresh job candidate over an
empty store is inserted as the single new row. -/
theorem scrape_run_dedup_amended_witness :
    (run_scraping_job []
        (Except.ok [⟨some "VC Analyst", some "Acme Capital", some "exa",
            some "https://acme.vc/jobs/1", false⟩]) 0 0).result =
      Except.ok ⟨"completed", 1, 1, 0, 0, 0⟩ := by
  have h := scrape_run_dedup_amended []
    [⟨some "VC Analyst", some "Acme Capital", some "exa",
        some "https://acme.vc/jobs/1", false⟩] [] [] 0 0
    (by
      intro c hc
      rw [List.mem_singleton] at hc
      subst hc
      exact ⟨by decide, rfl⟩)
    (by simp)
    (fun u => by simp)
    (by simp)
    (by simp)
    (fun w => by simp)
  exact h.1

/-! ## Claim C6 — per-candidate exceptions are contained -/

/-- C6: in both pipelines, an exception raised while processing one candidate
(a multi-row lookup result, failed construction, or a failed insert) is caught
locally: the candidate is counted toward `duplicates_removed` (the shared skip
counter), the store is unchanged by that iteration, the loop proceeds with the
remaining candidates, and any run whose search call succeeded still finishes
with status completed, every candidate ending up in exactly one of the new or
skip counts. -/
theorem per_candidate_failure_contained
    (dbJ : List JobRec) (c : JobData) (candsJ : List JobData)
    (dbS : List StartupRec) (s : StartupData) (candsS : List StartupData)
    (t0 t1 : Int) :
    (jobStepRaises dbJ c →
      processJob dbJ c = (dbJ, StepKind.err) ∧
      ingestLoop processJob dbJ (c :: candsJ) =
        ((ingestLoop processJob dbJ candsJ).1,
          (ingestLoop processJob dbJ candsJ).2.1,
          (ingestLoop processJob dbJ candsJ).2.2 + 1)) ∧
    (startupStepRaises dbS s →
      processStartup dbS s = (dbS, StepKind.err) ∧
      ingestLoop processStartup dbS (s :: candsS) =
        ((ingestLoop processStartup dbS candsS).1,
          (ingestLoop processStartup dbS candsS).2.1,
          (ingestLoop processStartup dbS candsS).2.2 + 1)) ∧
    (∃ r, (run_scraping_job dbJ (Except.ok candsJ) t0 t1).result =
        Except.ok r ∧ r.status = "completed" ∧
        r.found_count = candsJ.length ∧
        r.new_count + r.duplicates_removed = candsJ.length) ∧
    (∀ l ∈ (run_scraping_job dbJ (Except.ok candsJ) t0 t1).logs,
      l.status = "completed") ∧
    (∃ r, (run_dealflow_scrape dbS (Except.ok candsS) t0 t1).result =
        Except.ok r ∧ r.status = "completed" ∧
        r.found_count = candsS.length ∧
        r.new_count + r.duplicates_removed = candsS.length) ∧
    (∀ l ∈ (run_dealflow_scrape dbS (Except.ok candsS) t0 t1).logs,
      l.status = "completed") := by
  refine ⟨?_, ?_, ?_, ?_, ?_, ?_⟩
  · intro h
    have hstep := processJob_raises dbJ c h
    exact ⟨hstep, ingestLoop_cons_err processJob dbJ dbJ c candsJ hstep⟩
  · intro h
    have hstep := processStartup_raises dbS s h
    exact ⟨hstep, ingestLoop_cons_err processStartup dbS dbS s candsS hstep⟩
  · exact ⟨_, rfl, rfl, rfl, ingestLoop_counts_sum processJob candsJ dbJ⟩
  · intro l hl
    simp only [run_scraping_job, List.mem_singleton] at hl
    subst hl
    rfl
  · exact ⟨_, rfl, rfl, rfl, ingestLoop_counts_sum processStartup candsS dbS⟩
  · intro l hl
    simp only [run_dealflow_scrape, List.mem_singleton] at hl
    subst hl
    rfl

/-- Witness for `per_candidate_failure_contained`: a candidate whose insert
fails (`otherFailure`) over an empty store is recovered as an error step. -/
theorem per_candidate_failure_contained_witness :
    processJob [] ⟨some "VC Analyst", some "Acme Capital", some "exa",
        some "https://acme.vc/jobs/1", true⟩ =
      ([], StepKind.err) :=
  ((per_candidate_failure_contained []
      ⟨some "VC Analyst", some "Acme Capital", some "exa",
        some "https://acme.vc/jobs/1", true⟩ [] []
      ⟨none, none, none, false⟩ [] 0 0).1
    (Or.inr ⟨rfl, Or.inr rfl⟩)).1

end VCTracker
